import Mathlib

/-!
Shallow embedding of the face-recognition worker and its persisted gallery
(`src/face_recognition_live/database.py` and `src/game/recognition/recognition.py`).

Modelling conventions:
* Python lists become Lean `List`s; `faces[-1000:]` becomes
  `l.drop (l.length - 1000)` (truncated `Nat` subtraction gives the whole list
  when `l.length ≤ 1000`, exactly like the Python negative-index slice).
* The pickle file is modelled as `Option (List StoredFace)`: `none` when the
  file does not exist, `some l` for an existing file whose deserialized content
  is `l` (pickle serialization itself round-trips and is out of scope).
* `datetime.datetime.now()` is an explicit `now : Nat` argument (the clock is
  external state).
* Exceptions are modelled with `Except`: a `.error` value is a raised
  exception; of the model-stack calls only `find_landmarks` is given a fallible
  type because alignment failure is the failure mode under study.
* The multiprocessing queues are modelled as the list of messages a single
  external producer has enqueued; `WorkerProcess.run` consumes that list.
-/

/-- `StoredFace = namedtuple("StoredFace", ["timestamp", "features", "image"])`. -/
structure StoredFace (F I : Type) where
  timestamp : Nat
  features : F
  image : I
deriving Repr, DecidableEq

/-- `FaceDatabase`: in-memory list of stored faces plus the backing file,
modelled as the (deserialized) content of the pickle file, `none` if absent. -/
structure FaceDatabase (F I : Type) where
  faces : List (StoredFace F I)
  database_file : Option (List (StoredFace F I))
deriving Repr, DecidableEq

namespace FaceDatabase

/-- `FaceDatabase.__init__`: load the pickle file if it exists, else start empty. -/
def init (F I : Type) (file : Option (List (StoredFace F I))) : FaceDatabase F I :=
  match file with
  | some l => ⟨l, some l⟩
  | none => ⟨[], none⟩

/-- `FaceDatabase.add`: append a `StoredFace` stamped with the current time;
does not touch the file. -/
def add {F I : Type} (db : FaceDatabase F I) (now : Nat) (features : F) (image : I) :
    FaceDatabase F I :=
  { db with faces := db.faces ++ [⟨now, features, image⟩] }

/-- `FaceDatabase.store`: `self.faces = self.faces[-1000:]` then pickle-dump
the trimmed list to the file. -/
def store {F I : Type} (db : FaceDatabase F I) : FaceDatabase F I :=
  let kept := db.faces.drop (db.faces.length - 1000)
  ⟨kept, some kept⟩

end FaceDatabase

/-- The `Error` envelope class: `self.error_queue.put(Error())` carries no payload. -/
inductive ErrorEnvelope : Type where
  | mk
deriving Repr, DecidableEq

/-- A message on the task queue: an ordinary task or the `Shutdown` sentinel. -/
inductive Msg (τ : Type) : Type where
  | task (t : τ)
  | shutdown
deriving Repr, DecidableEq

/-- Whether a message is the `Shutdown` sentinel. -/
def Msg.isShutdown {τ : Type} : Msg τ → Bool
  | .shutdown => true
  | .task _ => false

/-- Observable outcome of `WorkerProcess.run` on a (statically known) queue:
tasks on which `execute_task` was invoked, results pushed to the result queue,
envelopes pushed to the error queue, messages discarded by the drain loop,
whether the loop terminated (`false` means it is still spinning on an empty
queue), and the final worker-private state. -/
structure WorkerObs (τ ρ σ : Type) where
  executed : List τ
  results : List ρ
  errors : List ErrorEnvelope
  discarded : List (Msg τ)
  terminated : Bool
  state : σ
deriving Repr, DecidableEq

/-- `WorkerProcess.run`: poll the task queue; on `Shutdown` stop and drain
(discard every remaining message until the queue is empty, then terminate);
otherwise run `execute_task` and push a truthy result; an exception from
`execute_task` pushes one `Error()` envelope and re-raises, terminating the
process without draining. `exec` threads the worker-private state `σ`
(the recognition process's gallery). -/
def WorkerProcess.run {τ ρ σ ε : Type} (exec : σ → τ → Except ε (Option ρ × σ)) (s : σ) :
    List (Msg τ) → WorkerObs τ ρ σ
  | [] => ⟨[], [], [], [], false, s⟩
  | .shutdown :: rest => ⟨[], [], [], rest, true, s⟩
  | .task t :: rest =>
    match exec s t with
    | .error _ => ⟨[t], [], [.mk], [], true, s⟩
    | .ok (r, s') =>
      let o := WorkerProcess.run exec s' rest
      ⟨t :: o.executed, r.toList ++ o.results, o.errors, o.discarded, o.terminated, o.state⟩

/-- `init_recognition`: the context manager's body runs (enqueuing `body.1` on
the work queue and possibly raising `body.2`), and the `finally` block enqueues
one `Shutdown` sentinel on every exit path. The returned pair is the full
message sequence enqueued on the work queue and the escaping exception. -/
def init_recognition {τ ε : Type} (body : List (Msg τ) × Option ε) :
    List (Msg τ) × Option ε :=
  (body.1 ++ [Msg.shutdown], body.2)

/-- `game.recognition.face.Face`: per-detection working entity; `bounding_box`
and `thumbnail` are set at construction, the later fields are `None` until the
corresponding pipeline stage fills them in. -/
structure Face (B T L C F : Type) where
  bounding_box : B
  thumbnail : T
  landmarks : Option L := none
  crop : Option C := none
  features : Option F := none
  matches_ : Option (List (StoredFace (Option F) T × Int)) := none
deriving Repr, DecidableEq

/-- `RecognitionResult(faces)` as carried inside a `RegisterFaces` task: the
Python code distinguishes `recognition_result.faces is None` from an actual
list, so the field is an `Option`. -/
structure RecognitionResultMsg (B T L C F : Type) where
  faces : Option (List (Face B T L C F))
deriving Repr, DecidableEq

/-- The task variants dispatched by `RecognitionProcess.execute_task`
(`Shutdown` is consumed by the supervisor `run` loop and never reaches it). -/
inductive RTask (Img B T L C F : Type) : Type where
  | recognizeFaces (image : Img)
  | backupFaceDatabase
  | registerFaces (recognition_result : Option (RecognitionResultMsg B T L C F))
  | unregisterMostRecentFaces
deriving Repr, DecidableEq

/-- The result envelopes `execute_task` can return. -/
inductive RResult (B T L C F : Type) : Type where
  | recognition (faces : List (Face B T L C F))
  | registration (persons : List (StoredFace (Option F) T))
  | unregistration (persons : List (StoredFace (Option F) T))
deriving Repr, DecidableEq

/-- The external collaborators of `RecognitionProcess`: the model stack
(`init_model_stack`), the OpenCV/numpy operations it uses, and configuration.
`find_landmarks` is fallible (`Except`) because per-face alignment failure is
the failure mode the code must handle; model-stack values are opaque.
`remove_most_recent` abstracts `game.database.FaceDatabase.remove_most_recent`,
whose source is not in the repository snapshot and whose batch granularity the
spec leaves unpinned; it maps the gallery list to (removed, remaining). -/
structure RecogCtx (Img B T L C F ε : Type) where
  detect_faces : Img → List B
  find_landmarks : Img → B → Except ε L
  crop : Img → L → C
  extract_features : List (Option C) → List F
  match_faces : Option F → List (StoredFace (Option F) T) →
    List (StoredFace (Option F) T × Int)
  cvtColor : Img → Img
  slice : Img → B → T
  num_matches : Nat
  remove_most_recent : List (StoredFace (Option F) T) →
    List (StoredFace (Option F) T) × List (StoredFace (Option F) T)

/-- Modelled from the spec: `game.database.FaceDatabase.add_all`, called by the
`RegisterFaces` branch but absent from the repository snapshot (only
`face_recognition_live/database.py` is present). Spec §4.2: "for each Face in
the result, append a new StoredFace (current time, that face's features, that
face's thumbnail/crop) to the gallery and return a RegistrationResult listing
the newly stored identities". Returns (newly stored entries, updated gallery). -/
def FaceDatabase.add_all {B T L C F : Type} (db : FaceDatabase (Option F) T)
    (now : Nat) (faces : List (Face B T L C F)) :
    List (StoredFace (Option F) T) × FaceDatabase (Option F) T :=
  let stored := faces.map fun f => StoredFace.mk now f.features f.thumbnail
  (stored, { db with faces := db.faces ++ stored })

namespace RecognitionProcess

variable {Img B T L C F ε : Type}

/-- `RecognitionProcess.__detect_faces`: run detection on the RGB image, crop a
thumbnail for each box from the BGR image, build one `Face` per box. -/
def detect_faces (ctx : RecogCtx Img B T L C F ε) (rgb bgr : Img) :
    List (Face B T L C F) :=
  let bounding_boxes := ctx.detect_faces rgb
  let thumbnails := bounding_boxes.map (ctx.slice bgr)
  (bounding_boxes.zip thumbnails).map fun p => { bounding_box := p.1, thumbnail := p.2 }

/-- `RecognitionProcess._crop`: for each face in order, compute landmarks then
the aligned crop; an exception from `find_landmarks` aborts the whole loop
(there is no per-face handler in the source). -/
def crop (ctx : RecogCtx Img B T L C F ε) (rgb : Img) :
    List (Face B T L C F) → Except ε (List (Face B T L C F))
  | [] => pure []
  | face :: rest => do
    let lm ← ctx.find_landmarks rgb face.bounding_box
    let rest' ← crop ctx rgb rest
    pure ({ face with landmarks := some lm, crop := some (ctx.crop rgb lm) } :: rest')

/-- `RecognitionProcess._extract_features`: one batched model invocation over
all crops, results distributed back onto the faces in order (`zip`). -/
def extract_features (ctx : RecogCtx Img B T L C F ε) (faces : List (Face B T L C F)) :
    List (Face B T L C F) :=
  let all_features := ctx.extract_features (faces.map (·.crop))
  (faces.zip all_features).map fun p => { p.1 with features := some p.2 }

/-- `RecognitionProcess._find_matches`: per face, match against the gallery
list and keep the first `num_matches` entries (`[:num_matches]`). -/
def find_matches (ctx : RecogCtx Img B T L C F ε)
    (gallery : List (StoredFace (Option F) T)) (faces : List (Face B T L C F)) :
    List (Face B T L C F) :=
  faces.map fun face =>
    { face with matches_ := some ((ctx.match_faces face.features gallery).take ctx.num_matches) }

/-- `RecognitionProcess.execute_task`: dispatch on the task variant; threads
the gallery (`self.face_database`) as explicit state and takes the current
time as an argument. Returns the (possibly absent) result and the new gallery,
or the raised exception. -/
def execute_task (ctx : RecogCtx Img B T L C F ε) (now : Nat)
    (db : FaceDatabase (Option F) T) (task : RTask Img B T L C F) :
    Except ε (Option (RResult B T L C F) × FaceDatabase (Option F) T) :=
  match task with
  | .recognizeFaces bgr_image =>
    let rgb_image := ctx.cvtColor bgr_image
    let faces := detect_faces ctx rgb_image bgr_image
    if faces.length > 0 then do
      let faces ← crop ctx rgb_image faces
      let faces := extract_features ctx faces
      let faces := find_matches ctx db.faces faces
      pure (some (.recognition faces), db)
    else
      pure (some (.recognition faces), db)
  | .backupFaceDatabase =>
    pure (none, db.store)
  | .registerFaces recognition_result =>
    match recognition_result with
    | none => pure (some (.registration []), db)
    | some r =>
      match r.faces with
      | none => pure (some (.registration []), db)
      | some fs =>
        let p := db.add_all now fs
        pure (some (.registration p.1), p.2)
  | .unregisterMostRecentFaces =>
    let p := ctx.remove_most_recent db.faces
    pure (some (.unregistration p.1), { db with faces := p.2 })

end RecognitionProcess

/-- Concrete all-Nat recognition context whose detector finds no faces
(used to instantiate theorems on explicit inputs). -/
def ctxNoDetect : RecogCtx Nat Nat Nat Nat Nat Nat Unit :=
  ⟨fun _ => [], fun _ _ => .ok 0, fun _ _ => 0, fun _ => [], fun _ g => g.map fun s => (s, 0),
    id, fun _ _ => 0, 2, fun l => ([], l)⟩

/-- Concrete all-Nat recognition context whose matcher scores every gallery
entry (score 0) and keeps the first `num_matches = 2`. -/
def ctxMatch : RecogCtx Nat Nat Nat Nat Nat Nat Unit :=
  ⟨fun _ => [5], fun _ _ => .ok 0, fun _ _ => 0, fun l => l.map fun _ => 0,
    fun _ g => g.map fun s => (s, 0), id, fun _ _ => 0, 2, fun l => ([], l)⟩

/-- Concrete all-Nat recognition context that detects two faces (boxes 0 and
1) and whose landmark model fails exactly on box 0. -/
def ctxFail : RecogCtx Nat Nat Nat Nat Nat Nat Unit :=
  ⟨fun _ => [0, 1], fun _ b => if b = 0 then .error () else .ok b, fun _ _ => 0,
    fun l => l.map fun _ => 0, fun _ g => g.map fun s => (s, 0), id, fun _ _ => 0, 2,
    fun l => ([], l)⟩

/-- Concrete three-entry gallery used by the matching-stage witness. -/
def galleryW : List (StoredFace (Option Nat) Nat) :=
  [⟨1, some 1, 1⟩, ⟨2, some 2, 2⟩, ⟨3, some 3, 3⟩]

/-- Concrete face used by the matching-stage witness. -/
def faceW : Face Nat Nat Nat Nat Nat :=
  ⟨0, 0, none, none, none, none⟩

/-! ## Theorems -/

/-- Helper: on a queue of plain tasks all of which execute successfully, the
worker executes every task in order and pushes no error. -/
theorem WorkerProcess.run_tasks_ok {τ ρ σ ε : Type}
    (exec : σ → τ → Except ε (Option ρ × σ)) (s : σ) (pre : List τ)
    (h : (WorkerProcess.run exec s (pre.map Msg.task)).errors = []) :
    (WorkerProcess.run exec s (pre.map Msg.task)).executed = pre := by
  induction pre generalizing s with
  | nil => simp [WorkerProcess.run]
  | cons p ps ih =>
    cases hp : exec s p with
    | error e => simp [WorkerProcess.run, hp] at h
    | ok v => simp [WorkerProcess.run, hp] at h ⊢; exact ih v.2 h

/-- C1: with the queue holding [Task A, Task B, Shutdown, Task C] and A and B
executing successfully with results `ra` and `rb`, the worker executes exactly
A then B, pushes `ra` then `rb` onto the result queue in that order, pushes no
error, discards Task C in the drain phase without executing it, and
terminates once the queue is empty. -/
theorem worker_fifo_shutdown_drain {τ ρ σ ε : Type}
    (exec : σ → τ → Except ε (Option ρ × σ)) (s0 sa sb : σ)
    (A B C : τ) (ra rb : ρ)
    (hA : exec s0 A = .ok (some ra, sa)) (hB : exec sa B = .ok (some rb, sb)) :
    WorkerProcess.run exec s0 [.task A, .task B, .shutdown, .task C] =
      ⟨[A, B], [ra, rb], [], [.task C], true, sb⟩ := by
  simp [WorkerProcess.run, hA, hB]

/-- Witness for C1 at a concrete queue. -/
theorem worker_fifo_shutdown_drain_witness :
    WorkerProcess.run (fun (_ : Unit) (t : Nat) => (Except.ok (some t, ()) : Except Unit (Option Nat × Unit))) ()
        [.task 1, .task 2, .shutdown, .task 3] =
      ⟨[1, 2], [1, 2], [], [.task 3], true, ()⟩ :=
  worker_fifo_shutdown_drain _ () () () 1 2 3 1 2 rfl rfl

/-- C2: if every task in the prefix `pre` executes successfully and the next
task `t` raises, then exactly one Error envelope is pushed onto the error
queue, no result is pushed for `t` (the results are exactly those of the
prefix), no task enqueued after `t` — even one already in the queue (`rest`)
— is ever executed, and the worker terminates at once without running the
drain phase (nothing is discarded). -/
theorem worker_fail_fast {τ ρ σ ε : Type}
    (exec : σ → τ → Except ε (Option ρ × σ)) (s : σ) (pre : List τ) (t : τ)
    (rest : List (Msg τ)) (e : ε)
    (hpre : (WorkerProcess.run exec s (pre.map Msg.task)).errors = [])
    (hfail : exec (WorkerProcess.run exec s (pre.map Msg.task)).state t = .error e) :
    WorkerProcess.run exec s (pre.map Msg.task ++ Msg.task t :: rest) =
      ⟨pre ++ [t], (WorkerProcess.run exec s (pre.map Msg.task)).results,
        [.mk], [], true, (WorkerProcess.run exec s (pre.map Msg.task)).state⟩ := by
  induction pre generalizing s with
  | nil =>
    simp only [List.map_nil, WorkerProcess.run] at hfail
    simp only [List.map_nil, List.nil_append, WorkerProcess.run, hfail]
  | cons p ps ih =>
    cases hp : exec s p with
    | error e' => simp [WorkerProcess.run, hp] at hpre
    | ok v =>
      simp only [List.map_cons, List.cons_append] at hfail hpre ⊢
      simp only [WorkerProcess.run, hp] at hfail hpre ⊢
      rw [ih v.2 hpre hfail]

/-- Witness for C2 at a concrete queue: task 7 fails after tasks 1, 2
succeeded, with tasks 9 and a Shutdown still in the queue. -/
theorem worker_fail_fast_witness :
    WorkerProcess.run
        (fun (_ : Unit) (t : Nat) =>
          (if t = 7 then .error () else .ok (some t, ()) : Except Unit (Option Nat × Unit))) ()
        ([Msg.task 1, Msg.task 2] ++ Msg.task 7 :: [Msg.task 9, Msg.shutdown]) =
      ⟨[1, 2, 7], [1, 2], [.mk], [], true, ()⟩ := by
  have h := worker_fail_fast
    (fun (_ : Unit) (t : Nat) =>
      (if t = 7 then .error () else .ok (some t, ()) : Except Unit (Option Nat × Unit)))
    () [1, 2] 7 [Msg.task 9, Msg.shutdown] () (by simp [WorkerProcess.run]) (by simp [WorkerProcess.run])
  simp only [WorkerProcess.run] at h
  exact h

/-- Helper: a queue ending in a `Shutdown` sentinel always drives the worker
loop to termination (either via the drain phase or via fail-fast on an
earlier exception). -/
theorem WorkerProcess.run_append_shutdown_terminated {τ ρ σ ε : Type}
    (exec : σ → τ → Except ε (Option ρ × σ)) (s : σ) (q : List (Msg τ)) :
    (WorkerProcess.run exec s (q ++ [Msg.shutdown])).terminated = true := by
  induction q generalizing s with
  | nil => simp [WorkerProcess.run]
  | cons m rest ih =>
    cases m with
    | shutdown => simp [WorkerProcess.run]
    | task t =>
      cases hp : exec s t with
      | error e => simp [WorkerProcess.run, hp]
      | ok v =>
        simp only [List.cons_append, WorkerProcess.run, hp]
        exact ih v.2

/-- C10: whatever the managed block enqueues (`msgs`) and however it exits
(normally, `err = none`, or by raising, `err = some e`), `init_recognition`
enqueues exactly one additional `Shutdown` sentinel, appended after the
block's messages, so the resulting queue always drives the worker's
shutdown/drain protocol to termination. -/
theorem init_recognition_always_shuts_down {τ ε : Type}
    (msgs : List (Msg τ)) (err : Option ε) :
    (init_recognition (msgs, err)).1 = msgs ++ [Msg.shutdown] ∧
    (init_recognition (msgs, err)).1.countP Msg.isShutdown =
      msgs.countP Msg.isShutdown + 1 ∧
    (init_recognition (msgs, err)).2 = err ∧
    ∀ {ρ σ ε' : Type} (exec : σ → τ → Except ε' (Option ρ × σ)) (s : σ),
      (WorkerProcess.run exec s (init_recognition (msgs, err)).1).terminated = true := by
  refine ⟨rfl, ?_, rfl, ?_⟩
  · simp [init_recognition, Msg.isShutdown]
  · intro ρ σ ε' exec s
    exact WorkerProcess.run_append_shutdown_terminated exec s msgs

/-- Helper: folding `add_all` over a list of registration rounds grows the
gallery by the total number of registered faces. -/
theorem FaceDatabase.foldl_add_all_length {B T L C F : Type} (now : Nat)
    (rounds : List (List (Face B T L C F))) (db : FaceDatabase (Option F) T) :
    (rounds.foldl (fun d r => (d.add_all now r).2) db).faces.length =
      db.faces.length + (rounds.map List.length).sum := by
  induction rounds generalizing db with
  | nil => simp
  | cons r rs ih =>
    simp only [List.foldl_cons, List.map_cons, List.sum_cons, ih]
    simp [FaceDatabase.add_all]
    omega

/-- C3: `store` trims the in-memory gallery to the suffix of the last
min(n, 1000) entries — the most-recently-inserted entries in insertion order,
oldest discarded first — and writes exactly that trimmed sequence to the
file; consequently, starting from a fresh (absent-file) gallery, after any
sequence of registration rounds of k faces each followed by a backup and a
reload, the gallery holds min(rounds·k, 1000) entries. -/
theorem store_trims_to_last_1000 {F I B T L C Ft : Type} (db : FaceDatabase F I) :
    ((db.store).faces = db.faces.drop (db.faces.length - 1000) ∧
      (db.store).faces.length = min db.faces.length 1000 ∧
      (db.store).faces <:+ db.faces ∧
      (db.store).database_file = some (db.store).faces) ∧
    ∀ (now k : Nat) (rounds : List (List (Face B T L C Ft))),
      (∀ r ∈ rounds, r.length = k) →
      (FaceDatabase.init (Option Ft) T
          ((rounds.foldl (fun d r => (d.add_all now r).2)
            (FaceDatabase.init (Option Ft) T none)).store).database_file).faces.length =
        min (rounds.length * k) 1000 := by
  have hfaces : (db.store).faces = db.faces.drop (db.faces.length - 1000) := by
    simp [FaceDatabase.store]
  constructor
  · refine ⟨hfaces, ?_, ?_, ?_⟩
    · simp only [hfaces, List.length_drop]
      omega
    · rw [hfaces]
      exact List.drop_suffix _ _
    · simp [FaceDatabase.store]
  · intro now k rounds hk
    have hsum : (rounds.map List.length).sum = rounds.length * k := by
      have : rounds.map List.length = List.replicate rounds.length k := by
        refine List.eq_replicate_iff.mpr ⟨by simp, ?_⟩
        intro b hb
        obtain ⟨r, hr, rfl⟩ := List.mem_map.mp hb
        exact hk r hr
      simp [this, List.sum_replicate, Nat.smul_one_eq_cast]
    have hlen := FaceDatabase.foldl_add_all_length now rounds
      (FaceDatabase.init (Option Ft) T none)
    simp only [FaceDatabase.init, List.length_nil, Nat.zero_add] at hlen
    simp only [FaceDatabase.store, FaceDatabase.init, List.length_drop, hlen, hsum]
    omega

/-- Witness for C3: a 1-entry gallery is left intact by `store`, and two
registration rounds of one face each followed by backup and reload yield a
2-entry gallery. -/
theorem store_trims_to_last_1000_witness :
    (((⟨[⟨0, 1, 2⟩], none⟩ : FaceDatabase Nat Nat).store).faces =
        [⟨0, 1, 2⟩] ∧
      ((⟨[⟨0, 1, 2⟩], none⟩ : FaceDatabase Nat Nat).store).faces.length = 1 ∧
      ((⟨[⟨0, 1, 2⟩], none⟩ : FaceDatabase Nat Nat).store).faces <:+ [⟨0, 1, 2⟩] ∧
      ((⟨[⟨0, 1, 2⟩], none⟩ : FaceDatabase Nat Nat).store).database_file =
        some ((⟨[⟨0, 1, 2⟩], none⟩ : FaceDatabase Nat Nat).store).faces) ∧
    (FaceDatabase.init (Option Nat) Nat
        (([[⟨7, 7, none, none, none, none⟩], [⟨8, 8, none, none, none, none⟩]] : List (List (Face Nat Nat Nat Nat Nat))).foldl
            (fun d r => (d.add_all 5 r).2)
            (FaceDatabase.init (Option Nat) Nat none)).store.database_file).faces.length = 2 := by
  have h := @store_trims_to_last_1000 Nat Nat Nat Nat Nat Nat Nat
    (⟨[⟨0, 1, 2⟩], none⟩ : FaceDatabase Nat Nat)
  exact ⟨⟨h.1.1, h.1.2.1, by simpa using h.1.2.2.1, h.1.2.2.2⟩,
    h.2 5 1 [[⟨7, 7, none, none, none, none⟩], [⟨8, 8, none, none, none, none⟩]] (by decide)⟩

/-- C4: persisting a gallery of at most 1000 entries and loading a fresh
gallery from the written file yields exactly the same sequence — same count,
same field values, same order (the empty gallery included) — and loading
when the backing file does not exist yields the empty sequence. -/
theorem store_load_roundtrip {F I : Type} (db : FaceDatabase F I)
    (h : db.faces.length ≤ 1000) :
    (FaceDatabase.init F I (db.store).database_file).faces = db.faces ∧
    (FaceDatabase.init F I none).faces = [] := by
  have hkeep : db.faces.drop (db.faces.length - 1000) = db.faces := by
    rw [Nat.sub_eq_zero_of_le h, List.drop_zero]
  constructor
  · simp [FaceDatabase.store, FaceDatabase.init, hkeep]
  · rfl

/-- Witness for C4: round-trip of a concrete 2-entry gallery. -/
theorem store_load_roundtrip_witness :
    (FaceDatabase.init Nat Nat
        ((⟨[⟨1, 10, 20⟩, ⟨2, 11, 21⟩], none⟩ : FaceDatabase Nat Nat).store).database_file).faces =
      [⟨1, 10, 20⟩, ⟨2, 11, 21⟩] ∧
    (FaceDatabase.init Nat Nat none).faces = [] :=
  store_load_roundtrip (⟨[⟨1, 10, 20⟩, ⟨2, 11, 21⟩], none⟩ : FaceDatabase Nat Nat) (by decide)

/-- C9: assuming a monotone clock (every stored timestamp is at most the
current time), each gallery operation preserves the invariant that the
timestamps of the stored sequence are non-decreasing in insertion order:
`add` appends a `StoredFace` stamped with the current time to the tail
without touching the backing file, and `store` keeps a contiguous suffix. -/
theorem gallery_timestamps_monotone {F I : Type} (db : FaceDatabase F I)
    (now : Nat) (f : F) (i : I)
    (hmono : List.Pairwise (fun a b => a.timestamp ≤ b.timestamp) db.faces)
    (hclock : ∀ s ∈ db.faces, s.timestamp ≤ now) :
    List.Pairwise (fun a b => a.timestamp ≤ b.timestamp) (db.add now f i).faces ∧
    (db.add now f i).faces = db.faces ++ [⟨now, f, i⟩] ∧
    (db.add now f i).database_file = db.database_file ∧
    List.Pairwise (fun a b => a.timestamp ≤ b.timestamp) (db.store).faces ∧
    (db.store).faces <:+ db.faces := by
  have hfaces : (db.store).faces = db.faces.drop (db.faces.length - 1000) := by
    simp [FaceDatabase.store]
  refine ⟨?_, rfl, rfl, ?_, ?_⟩
  · simp only [FaceDatabase.add]
    rw [List.pairwise_append]
    refine ⟨hmono, by simp, ?_⟩
    intro a ha b hb
    simp only [List.mem_singleton] at hb
    subst hb
    exact hclock a ha
  · rw [hfaces]
    exact hmono.sublist (List.drop_sublist _ _)
  · rw [hfaces]
    exact List.drop_suffix _ _

/-- Witness for C9 at a concrete gallery with timestamps [1, 2] and clock 5. -/
theorem gallery_timestamps_monotone_witness :
    List.Pairwise (fun a b => a.timestamp ≤ b.timestamp)
      ((⟨[⟨1, 0, 0⟩, ⟨2, 0, 0⟩], none⟩ : FaceDatabase Nat Nat).add 5 3 4).faces ∧
    ((⟨[⟨1, 0, 0⟩, ⟨2, 0, 0⟩], none⟩ : FaceDatabase Nat Nat).add 5 3 4).faces =
      [⟨1, 0, 0⟩, ⟨2, 0, 0⟩] ++ [⟨5, 3, 4⟩] ∧
    ((⟨[⟨1, 0, 0⟩, ⟨2, 0, 0⟩], none⟩ : FaceDatabase Nat Nat).add 5 3 4).database_file = none ∧
    List.Pairwise (fun a b => a.timestamp ≤ b.timestamp)
      ((⟨[⟨1, 0, 0⟩, ⟨2, 0, 0⟩], none⟩ : FaceDatabase Nat Nat).store).faces ∧
    ((⟨[⟨1, 0, 0⟩, ⟨2, 0, 0⟩], none⟩ : FaceDatabase Nat Nat).store).faces <:+
      [⟨1, 0, 0⟩, ⟨2, 0, 0⟩] :=
  gallery_timestamps_monotone (⟨[⟨1, 0, 0⟩, ⟨2, 0, 0⟩], none⟩ : FaceDatabase Nat Nat) 5 3 4
    (by decide) (by decide)

/-- C5: a `RegisterFaces` task whose recognition result is absent or carries
no faces returns an empty `RegistrationResult` without raising and leaves the
gallery unchanged; a `RegisterFaces` task carrying a list of faces appends
one `StoredFace` per face — current time, that face's features, that face's
thumbnail — to the gallery and returns a `RegistrationResult` listing exactly
the newly stored entries. -/
theorem register_faces_spec {Img B T L C F ε : Type} (ctx : RecogCtx Img B T L C F ε)
    (now : Nat) (db : FaceDatabase (Option F) T) :
    (RecognitionProcess.execute_task ctx now db (.registerFaces none) =
      .ok (some (.registration []), db)) ∧
    (RecognitionProcess.execute_task ctx now db (.registerFaces (some ⟨none⟩)) =
      .ok (some (.registration []), db)) ∧
    (RecognitionProcess.execute_task ctx now db (.registerFaces (some ⟨some []⟩)) =
      .ok (some (.registration []), db)) ∧
    ∀ fs : List (Face B T L C F),
      RecognitionProcess.execute_task ctx now db (.registerFaces (some ⟨some fs⟩)) =
        .ok (some (.registration (fs.map fun f => ⟨now, f.features, f.thumbnail⟩)),
          ⟨db.faces ++ fs.map fun f => ⟨now, f.features, f.thumbnail⟩, db.database_file⟩) := by
  refine ⟨rfl, rfl, ?_, ?_⟩
  · simp only [RecognitionProcess.execute_task, FaceDatabase.add_all, List.map_nil,
      List.append_nil]
    rfl
  · intro fs
    simp only [RecognitionProcess.execute_task, FaceDatabase.add_all]
    rfl

/-- C6: when detection yields zero bounding boxes, `execute_task` on a
`RecognizeFaces` task returns a `RecognitionResult` with an empty face
sequence without raising, and leaves the gallery unchanged; since this holds
for every context with that detection outcome, the result does not depend on
the alignment, extraction or matching stages — they are skipped. -/
theorem recognize_no_faces {Img B T L C F ε : Type} (ctx : RecogCtx Img B T L C F ε)
    (now : Nat) (db : FaceDatabase (Option F) T) (img : Img)
    (hdet : ctx.detect_faces (ctx.cvtColor img) = []) :
    RecognitionProcess.execute_task ctx now db (.recognizeFaces img) =
      .ok (some (.recognition []), db) := by
  simp only [RecognitionProcess.execute_task, RecognitionProcess.detect_faces, hdet,
    List.map_nil, List.zip_nil_left, List.length_nil, gt_iff_lt, Nat.lt_irrefl, if_false]
  rfl

/-- Helper: the `RecognizeFaces` branch of `execute_task` never changes the
gallery — it only reads `db.faces` in the matching stage. -/
theorem execute_task_recognize_preserves_db {Img B T L C F ε : Type}
    (ctx : RecogCtx Img B T L C F ε) (now : Nat) (db : FaceDatabase (Option F) T)
    (img : Img) (r : Option (RResult B T L C F)) (db' : FaceDatabase (Option F) T)
    (h : RecognitionProcess.execute_task ctx now db (.recognizeFaces img) = .ok (r, db')) :
    db' = db := by
  simp only [RecognitionProcess.execute_task] at h
  split at h
  · cases hc : RecognitionProcess.crop ctx (ctx.cvtColor img)
      (RecognitionProcess.detect_faces ctx (ctx.cvtColor img) img) with
    | error e =>
      rw [hc] at h
      simp [Except.bind] at h
    | ok cf =>
      rw [hc] at h
      simp only [Except.bind, pure, Except.pure] at h
      cases h
      rfl
  · simp only [pure, Except.pure, Except.ok.injEq, Prod.mk.injEq] at h
    exact h.2.symm

/-- C7: assuming the matching capability returns, for a face, a list with one
scored candidate per gallery entry ordered by descending score (spec §6), the
matching stage assigns that face a match list of length exactly
`num_matches = k ≤ M`, still sorted by descending score, in which no score is
lower than any omitted candidate's score; and the stage (the whole
`RecognizeFaces` branch) does not mutate the gallery. -/
theorem find_matches_spec {Img B T L C F ε : Type} (ctx : RecogCtx Img B T L C F ε)
    (gallery : List (StoredFace (Option F) T)) (faces : List (Face B T L C F))
    (hk : ctx.num_matches ≤ gallery.length)
    (hlen : ∀ f ∈ faces, (ctx.match_faces f.features gallery).length = gallery.length)
    (hsort : ∀ f ∈ faces,
      List.Pairwise (fun a b => b.2 ≤ a.2) (ctx.match_faces f.features gallery)) :
    (∀ fo ∈ RecognitionProcess.find_matches ctx gallery faces,
      ∃ f, f ∈ faces ∧
        fo = { f with
                matches_ := some ((ctx.match_faces f.features gallery).take ctx.num_matches) } ∧
        ∃ ms, fo.matches_ = some ms ∧
          ms.length = ctx.num_matches ∧
          List.Pairwise (fun a b => b.2 ≤ a.2) ms ∧
          ∀ a ∈ ms, ∀ b ∈ (ctx.match_faces f.features gallery).drop ctx.num_matches,
            b.2 ≤ a.2) ∧
    ∀ (now : Nat) (db : FaceDatabase (Option F) T) (img : Img)
      (r : Option (RResult B T L C F)) (db' : FaceDatabase (Option F) T),
      RecognitionProcess.execute_task ctx now db (.recognizeFaces img) = .ok (r, db') →
        db' = db := by
  constructor
  · intro fo hfo
    simp only [RecognitionProcess.find_matches, List.mem_map] at hfo
    obtain ⟨f, hf, rfl⟩ := hfo
    refine ⟨f, hf, rfl, (ctx.match_faces f.features gallery).take ctx.num_matches,
      rfl, ?_, ?_, ?_⟩
    · rw [List.length_take, hlen f hf]
      exact Nat.min_eq_left hk
    · exact (hsort f hf).sublist (List.take_sublist _ _)
    · have h2 : List.Pairwise (fun a b => b.2 ≤ a.2)
          ((ctx.match_faces f.features gallery).take ctx.num_matches ++
            (ctx.match_faces f.features gallery).drop ctx.num_matches) := by
        rw [List.take_append_drop]
        exact hsort f hf
      exact (List.pairwise_append.mp h2).2.2
  · intro now db img r db' h
    exact execute_task_recognize_preserves_db ctx now db img r db' h

/-- Witness for C6: the no-detection context on a concrete frame. -/
theorem recognize_no_faces_witness :
    RecognitionProcess.execute_task ctxNoDetect 0 (⟨[], none⟩ : FaceDatabase (Option Nat) Nat)
        (.recognizeFaces 9) =
      .ok (some (.recognition []), (⟨[], none⟩ : FaceDatabase (Option Nat) Nat)) :=
  recognize_no_faces ctxNoDetect 0 ⟨[], none⟩ 9 rfl

/-- Witness for C7: matching one concrete face against a three-entry gallery
with `num_matches = 2`. -/
theorem find_matches_spec_witness :
    (ctxMatch.num_matches ≤ galleryW.length ∧
      (∀ f ∈ [faceW], (ctxMatch.match_faces f.features galleryW).length = galleryW.length) ∧
      ∀ f ∈ [faceW],
        List.Pairwise (fun a b => b.2 ≤ a.2) (ctxMatch.match_faces f.features galleryW)) ∧
    (∀ fo ∈ RecognitionProcess.find_matches ctxMatch galleryW [faceW],
      ∃ f, f ∈ [faceW] ∧
        fo = { f with
                matches_ :=
                  some ((ctxMatch.match_faces f.features galleryW).take ctxMatch.num_matches) } ∧
        ∃ ms, fo.matches_ = some ms ∧
          ms.length = ctxMatch.num_matches ∧
          List.Pairwise (fun a b => b.2 ≤ a.2) ms ∧
          ∀ a ∈ ms, ∀ b ∈ (ctxMatch.match_faces f.features galleryW).drop ctxMatch.num_matches,
            b.2 ≤ a.2) ∧
    ∀ (now : Nat) (db : FaceDatabase (Option Nat) Nat) (img : Nat)
      (r : Option (RResult Nat Nat Nat Nat Nat)) (db' : FaceDatabase (Option Nat) Nat),
      RecognitionProcess.execute_task ctxMatch now db (.recognizeFaces img) = .ok (r, db') →
        db' = db :=
  ⟨⟨by decide, by decide, by decide⟩,
    find_matches_spec ctxMatch galleryW [faceW] (by decide) (by decide) (by decide)⟩

/-- Helper: the detection stage builds one `Face` per detected box, in order,
with the thumbnail sliced from the BGR image. -/
theorem detect_faces_eq {Img B T L C F ε : Type} (ctx : RecogCtx Img B T L C F ε)
    (rgb bgr : Img) :
    RecognitionProcess.detect_faces ctx rgb bgr =
      (ctx.detect_faces rgb).map
        (fun b => (⟨b, ctx.slice bgr b, none, none, none, none⟩ : Face B T L C F)) := by
  simp only [RecognitionProcess.detect_faces]
  induction ctx.detect_faces rgb with
  | nil => rfl
  | cons b bs ih => simpa using ih

/-- Helper: `_crop` propagates the first landmark-detection exception — once
one face in the frame fails, the whole stage (and frame) fails. -/
theorem crop_error_of_mem {Img B T L C F ε : Type} (ctx : RecogCtx Img B T L C F ε)
    (rgb : Img) (pre : List (Face B T L C F)) (f0 : Face B T L C F)
    (post : List (Face B T L C F)) (e : ε)
    (hpre : ∀ f ∈ pre, ∃ l, ctx.find_landmarks rgb f.bounding_box = .ok l)
    (hfail : ctx.find_landmarks rgb f0.bounding_box = .error e) :
    RecognitionProcess.crop ctx rgb (pre ++ f0 :: post) = .error e := by
  induction pre with
  | nil =>
    simp only [List.nil_append, RecognitionProcess.crop, hfail]
    rfl
  | cons p ps ih =>
    obtain ⟨l, hl⟩ := hpre p (List.mem_cons_self p ps)
    have hps : ∀ f ∈ ps, ∃ l, ctx.find_landmarks rgb f.bounding_box = .ok l :=
      fun f hf => hpre f (List.mem_cons_of_mem p hf)
    simp only [List.cons_append, RecognitionProcess.crop, hl, List.append_eq] at ih ⊢
    rw [ih hps]
    rfl

/-- C8 (amended): in a frame with several detected Faces, a landmark-detection
failure while processing one Face is NOT isolated to that Face — `_crop` has
no per-face handler, so the exception propagates out of `execute_task`, no
sibling Face advances through the later stages, and no `RecognitionResult` is
produced for the frame (by the fail-fast policy the worker then pushes an
Error envelope and terminates). Stated for the first failing Face: every
earlier Face aligns successfully, the Face with box `b0` fails. -/
theorem crop_failure_aborts_frame {Img B T L C F ε : Type}
    (ctx : RecogCtx Img B T L C F ε) (now : Nat) (db : FaceDatabase (Option F) T)
    (img : Img) (pre post : List B) (b0 : B) (e : ε)
    (hdet : ctx.detect_faces (ctx.cvtColor img) = pre ++ b0 :: post)
    (hpre : ∀ b ∈ pre, ∃ l, ctx.find_landmarks (ctx.cvtColor img) b = .ok l)
    (hfail : ctx.find_landmarks (ctx.cvtColor img) b0 = .error e) :
    RecognitionProcess.execute_task ctx now db (.recognizeFaces img) = .error e := by
  have hfaces := detect_faces_eq ctx (ctx.cvtColor img) img
  rw [hdet] at hfaces
  simp only [List.map_append, List.map_cons] at hfaces
  have hcrop := crop_error_of_mem ctx (ctx.cvtColor img)
    (pre.map fun b => (⟨b, ctx.slice img b, none, none, none, none⟩ : Face B T L C F))
    (⟨b0, ctx.slice img b0, none, none, none, none⟩ : Face B T L C F)
    (post.map fun b => (⟨b, ctx.slice img b, none, none, none, none⟩ : Face B T L C F)) e
    (by
      intro f hf
      obtain ⟨b, hb, rfl⟩ := List.mem_map.mp hf
      exact hpre b hb)
    hfail
  simp only [RecognitionProcess.execute_task, hfaces]
  rw [if_pos (by simp)]
  rw [hcrop]
  rfl

/-- C8 counterexample: with two detected Faces (boxes 0 and 1) and the
landmark model failing only on box 0, `execute_task` raises instead of
isolating the failure: no `RecognitionResult` is produced, so the sibling
Face (box 1) never advances through the later stages, and at the worker level
the frame kills the worker — refuting the claim that sibling Faces of the
same frame still advance. -/
theorem crop_failure_counterexample :
    RecognitionProcess.execute_task ctxFail 0 (⟨[], none⟩ : FaceDatabase (Option Nat) Nat)
        (.recognizeFaces 0) = .error () ∧
    WorkerProcess.run (fun db t => RecognitionProcess.execute_task ctxFail 0 db t)
        (⟨[], none⟩ : FaceDatabase (Option Nat) Nat)
        [.task (.recognizeFaces 0), .shutdown] =
      ⟨[.recognizeFaces 0], [], [.mk], [], true, ⟨[], none⟩⟩ := by
  constructor <;> rfl

/-- Witness for the amended C8 theorem at the concrete failing context. -/
theorem crop_failure_aborts_frame_witness :
    (ctxFail.detect_faces (ctxFail.cvtColor 0) = [] ++ 0 :: [1] ∧
      (∀ b ∈ ([] : List Nat), ∃ l, ctxFail.find_landmarks (ctxFail.cvtColor 0) b = .ok l) ∧
      ctxFail.find_landmarks (ctxFail.cvtColor 0) 0 = .error ()) ∧
    RecognitionProcess.execute_task ctxFail 7 (⟨[], none⟩ : FaceDatabase (Option Nat) Nat)
      (.recognizeFaces 0) = .error () :=
  ⟨⟨rfl, by simp, rfl⟩,
    crop_failure_aborts_frame ctxFail 7 ⟨[], none⟩ 0 [] [1] 0 () rfl (by simp) rfl⟩
